import Mathlib

/-
Verification of the git-sync helper (src/sync.py).

The program shells out to an external git tool and touches the filesystem,
so the embedding makes those collaborators explicit parameters:

* a World record answers every git invocation (indexed by how many git
  calls have happened so far, so repeated queries may see evolving
  repository state), reports whether the target directory is already a
  repository, decides connectivity probes, and provides the current
  timestamp string;
* the monad M threads a call counter plus a trace of performed effects
  (git invocations and log lines) and models Python exceptions
  (subprocess.CalledProcessError from checked git calls, ValueError from
  int parsing) as an Except layer.

Python strings are modelled as List Char so that splitting and stripping
can be reasoned about by induction.
-/

namespace GitSync

/-- Python strings are modelled as lists of characters. -/
abbrev Str := List Char

/-- Shorthand turning a Lean string literal into the Str model. -/
def str (s : String) : Str := s.data

/-- Strip leading and trailing whitespace, as Python str.strip does. -/
def pyStrip (s : Str) : Str :=
  ((s.dropWhile Char.isWhitespace).reverse.dropWhile Char.isWhitespace).reverse

/-- Membership of a character in a string, as the Python "c in s" test. -/
def chrIn (c : Char) : Str → Bool
  | [] => false
  | x :: xs => x = c || chrIn c xs

/-- Split at the first occurrence of a character, as Python s.split(c, 1):
    none when the character is absent, otherwise the parts before and after
    the first occurrence. -/
def splitFirst (c : Char) : Str → Option (Str × Str)
  | [] => none
  | x :: xs =>
    if x = c then some ([], xs)
    else (splitFirst c xs).map (fun p => (x :: p.1, p.2))

/-- Split at the last occurrence of a character, as Python s.rsplit(c, 1). -/
def splitLast (c : Char) (s : Str) : Option (Str × Str) :=
  (splitFirst c s.reverse).map (fun p => (p.2.reverse, p.1.reverse))

/-- Python s.split() with no argument: split on whitespace runs, dropping
    empty fields. -/
def pySplitWS (s : Str) : List Str :=
  let p := s.foldr
    (fun c (acc : Str × List Str) =>
      if c.isWhitespace then
        if acc.1.isEmpty then acc else ([], acc.1 :: acc.2)
      else (c :: acc.1, acc.2))
    ([], [])
  if p.1.isEmpty then p.2 else p.1 :: p.2

/-- Parse a nonempty all-digit string to a natural number. -/
def parseDigits (s : Str) : Option Nat :=
  if s.isEmpty then none
  else if s.all Char.isDigit then
    some (s.foldl (fun acc c => acc * 10 + (c.toNat - 48)) 0)
  else none

/-- Python int(s) on an already considered string: optional sign followed by
    digits, with surrounding whitespace ignored; none models a ValueError. -/
def pyInt (s : Str) : Option Int :=
  match pyStrip s with
  | '-' :: ds => (parseDigits ds).map (fun n => -(n : Int))
  | '+' :: ds => (parseDigits ds).map (fun n => (n : Int))
  | ds => (parseDigits ds).map (fun n => (n : Int))

/-- Python "a or b" on strings: the first operand unless it is empty. -/
def pyOrStr (a b : Str) : Str := if a.isEmpty then b else a

/-- Python "opt or b" where opt is an optional string: falls back when the
    option is none or holds an empty string. -/
def pyOrOptStr (a : Option Str) (b : Str) : Str :=
  match a with
  | none => b
  | some s => pyOrStr s b

/-- Result of one git subprocess invocation: exit status plus captured
    standard output and standard error (run_git in src/sync.py). -/
structure GitResult where
  returncode : Int
  stdout : Str
  stderr : Str
deriving DecidableEq

/-- Observable effects of a run: a git invocation with its argument list,
    a log line, or a directory creation. -/
inductive Ev where
  | git (args : List Str)
  | log (msg : Str)
  | mkdir
deriving DecidableEq

/-- Python exceptions that the modelled code can raise: CalledProcessError
    from a checked git call, and ValueError from int parsing. -/
inductive PyErr where
  | calledProcess (res : GitResult)
  | valueError
deriving DecidableEq

/-- Interpreter state: how many git calls have happened (used to index the
    World oracle) and the trace of effects so far. -/
structure St where
  calls : Nat
  trace : List Ev
deriving DecidableEq

/-- The external collaborators: git answers (indexed by call number and
    argument list, so repeated queries may observe evolving repository
    state), whether the .git directory already exists, connectivity of a
    host and port, and the timestamp used in commit messages. -/
structure World where
  git : Nat → List Str → GitResult
  repoExists : Bool
  reachable : Str → Int → Bool
  now : Str

/-- Effect monad of the embedding: state passing plus Python exceptions. -/
def M (α : Type) : Type := St → Except PyErr α × St

/-- Run a computation from a given state. -/
def M.run {α : Type} (m : M α) (s : St) : Except PyErr α × St := m s

def M.pure {α : Type} (a : α) : M α := fun s => (Except.ok a, s)

def M.bind {α β : Type} (m : M α) (f : α → M β) : M β := fun s =>
  match m s with
  | (Except.ok a, s1) => f a s1
  | (Except.error e, s1) => (Except.error e, s1)

instance : Monad M where
  pure := M.pure
  bind := M.bind

/-- Raise a Python exception. -/
def M.throwErr {α : Type} (e : PyErr) : M α := fun s => (Except.error e, s)

/-- Python try/except: run the body, passing exceptions to the handler. -/
def M.tryCatch {α : Type} (m : M α) (h : PyErr → M α) : M α := fun s =>
  match m s with
  | (Except.ok a, s1) => (Except.ok a, s1)
  | (Except.error e, s1) => h e s1

/-- try/except subprocess.CalledProcessError: other exceptions propagate. -/
def catchCPE {α : Type} (m : M α) (h : GitResult → M α) : M α :=
  M.tryCatch m (fun e =>
    match e with
    | PyErr.calledProcess r => h r
    | e => M.throwErr e)

/-- log(msg) from src/sync.py: appends a log line to the trace (the
    timestamp decoration is part of the unspecified logging wrapper). -/
def logM (msg : Str) : M Unit := fun s =>
  (Except.ok (), ⟨s.calls, s.trace ++ [Ev.log msg]⟩)

/-- path.mkdir from ensure_repo: recorded as an effect. -/
def mkdirM : M Unit := fun s =>
  (Except.ok (), ⟨s.calls, s.trace ++ [Ev.mkdir]⟩)

/-- run_git from src/sync.py: consult the World for the result of the next
    git invocation, record it in the trace, and raise CalledProcessError
    when check is set and the exit status is nonzero. -/
def run_git (w : World) (args : List Str) (check : Bool) : M GitResult := fun s =>
  let res := w.git s.calls args
  ((if check && !(res.returncode = 0) then
      Except.error (PyErr.calledProcess res)
    else Except.ok res),
   ⟨s.calls + 1, s.trace ++ [Ev.git args]⟩)

/-- Constant MIN_INTERVAL_MINUTES from src/sync.py. -/
def MIN_INTERVAL_MINUTES : Int := 1

/-- Constant DEFAULT_INTERVAL_MINUTES from src/sync.py. -/
def DEFAULT_INTERVAL_MINUTES : Int := 5

/-- Constant DEFAULT_NETWORK_PORT from src/sync.py. -/
def DEFAULT_NETWORK_PORT : Int := 22

/-- One tracked directory (dataclass Entry in src/sync.py). -/
structure Entry where
  path : Str
  remote : Option Str
  branch : Str
  push : Bool
  commit_message : Str

/-- Process-wide configuration fields used by the sync procedure
    (dataclass Config in src/sync.py). -/
structure Config where
  entries : List Entry
  interval_minutes : Int
  network_host : Str
  network_port : Int

/-- Argument list of the git status query issued by has_changes. -/
def statusArgs : List Str := [str "status", str "--porcelain"]

/-- Argument list of the git remote listing issued by remote_exists. -/
def remoteArgs : List Str := [str "remote"]

/-- Argument list of the show-ref probe issued by origin_branch_exists. -/
def showRefArgs (branch : Str) : List Str :=
  [str "show-ref", str "--verify", str "refs/remotes/origin/" ++ branch]

/-- Argument list of the rev-list count query issued by ahead_behind. -/
def revListArgs (branch : Str) : List Str :=
  [str "rev-list", str "--left-right", str "--count",
   str "origin/" ++ branch ++ str "..." ++ branch]

/-- Argument list of the push issued by push_changes. -/
def pushArgs (branch : Str) : List Str :=
  [str "push", str "-u", str "origin", branch]

/-- repo_exists from src/sync.py: does path/.git exist. -/
def repo_exists (w : World) : Bool := w.repoExists

/-- ensure_repo from src/sync.py: a no-op when the repository exists;
    otherwise create the directory, init with the pinned branch (falling
    back to plain init plus checkout -B), and register the remote. -/
def ensure_repo (w : World) (path branch : Str) (remote : Option Str) : M Unit := do
  if repo_exists w then
    Pure.pure ()
  else do
    logM (str "Initializing repo at " ++ path)
    mkdirM
    catchCPE
      (do
        let _ ← run_git w [str "init", str "-b", branch] true
        Pure.pure ())
      (fun _ => do
        let _ ← run_git w [str "init"] true
        let _ ← run_git w [str "checkout", str "-B", branch] false
        Pure.pure ())
    match remote with
    | some r => do
        let _ ← run_git w [str "remote", str "add", str "origin", r] false
        Pure.pure ()
    | none => Pure.pure ()

/-- current_branch from src/sync.py: stripped rev-parse output, none when
    the call fails. -/
def current_branch (w : World) : M (Option Str) :=
  catchCPE
    (do
      let res ← run_git w [str "rev-parse", str "--abbrev-ref", str "HEAD"] true
      Pure.pure (some (pyStrip res.stdout)))
    (fun _ => Pure.pure none)

/-- set_branch from src/sync.py: checkout -B of the pinned branch. -/
def set_branch (w : World) (branch : Str) : M Unit := do
  let _ ← run_git w [str "checkout", str "-B", branch] false
  Pure.pure ()

/-- remote_exists from src/sync.py: true when the git remote listing
    succeeds with nonempty stripped output; a failing call means false.
    Note that this tests for any remote, not for one named origin. -/
def remote_exists (w : World) : M Bool :=
  catchCPE
    (do
      let res ← run_git w remoteArgs true
      Pure.pure (!(pyStrip res.stdout).isEmpty))
    (fun _ => Pure.pure false)

/-- upsert_remote from src/sync.py: register the configured remote as
    origin, but only when remote_exists reports no remote at all. -/
def upsert_remote (w : World) (remote : Option Str) : M Unit := do
  match remote with
  | none => Pure.pure ()
  | some r => do
    let re ← remote_exists w
    if re then
      Pure.pure ()
    else do
      let _ ← run_git w [str "remote", str "add", str "origin", r] false
      Pure.pure ()

/-- has_changes from src/sync.py: nonempty stripped porcelain status. -/
def has_changes (w : World) : M Bool := do
  let res ← run_git w statusArgs false
  Pure.pure (!(pyStrip res.stdout).isEmpty)

/-- origin_branch_exists from src/sync.py: show-ref exit status zero. -/
def origin_branch_exists (w : World) (branch : Str) : M Bool := do
  let res ← run_git w (showRefArgs branch) false
  Pure.pure (res.returncode = 0)

/-- Python int(s) inside the monad: ValueError when unparsable. -/
def pyIntM (s : Str) : M Int :=
  match pyInt s with
  | some n => Pure.pure n
  | none => M.throwErr PyErr.valueError

/-- ahead_behind from src/sync.py: (ahead, behind) relative to the
    remote-tracking branch; (0, 0) when that branch is absent, when the
    rev-list call fails, or when its output does not have two fields. -/
def ahead_behind (w : World) (branch : Str) : M (Int × Int) := do
  let ob ← origin_branch_exists w branch
  if !ob then
    Pure.pure (0, 0)
  else do
    let res ← run_git w (revListArgs branch) false
    if !(res.returncode = 0) then
      Pure.pure (0, 0)
    else
      match pySplitWS (pyStrip res.stdout) with
      | [l, r] => do
        let behind ← pyIntM l
        let ahead ← pyIntM r
        Pure.pure (ahead, behind)
      | _ => Pure.pure (0, 0)

/-- commit_changes from src/sync.py: nothing to do on a clean tree; on a
    dirty tree stage everything and run commit without checking its exit
    status, reporting true in every case. -/
def commit_changes (w : World) (message : Str) : M Bool := do
  let hc ← has_changes w
  if !hc then
    Pure.pure false
  else do
    let _ ← run_git w [str "add", str "-A"] true
    let _ ← run_git w [str "commit", str "-m", message] false
    Pure.pure true

/-- Render an integer for a log line. -/
def intToStr (n : Int) : Str := (toString n).data

/-- push_changes from src/sync.py: skip with a log line when no remote is
    configured, otherwise push (unchecked). -/
def push_changes (w : World) (path branch : Str) : M Unit := do
  let re ← remote_exists w
  if !re then
    logM (str "No remote configured for " ++ path ++ str "; skipping push")
  else
    catchCPE
      (do
        let _ ← run_git w (pushArgs branch) false
        Pure.pure ())
      (fun exc => logM (str "Push failed for " ++ path ++ str ": " ++ exc.stderr))

/-- fetch_remote from src/sync.py: pruning fetch of the pinned branch,
    logging and reporting failure on a nonzero exit. -/
def fetch_remote (w : World) (path branch : Str) : M Bool := do
  let res ← run_git w [str "fetch", str "--prune", str "origin", branch] false
  if !(res.returncode = 0) then do
    logM (str "Fetch failed for " ++ path ++ str ": " ++ pyOrStr res.stderr res.stdout)
    Pure.pure false
  else
    Pure.pure true

/-- rebase_onto_remote from src/sync.py: rebase onto the remote-tracking
    branch; on failure attempt an abort, log, and report failure. -/
def rebase_onto_remote (w : World) (path branch : Str) : M Bool := do
  let res ← run_git w [str "rebase", str "origin/" ++ branch] false
  if !(res.returncode = 0) then do
    let _ ← run_git w [str "rebase", str "--abort"] false
    logM (str "Rebase failed for " ++ path ++ str ": " ++ pyOrStr res.stderr res.stdout)
    Pure.pure false
  else
    Pure.pure true

/-- online_host_port from src/sync.py: the connectivity probe, answered by
    the World. -/
def online_host_port (w : World) (host : Str) (port : Int) : Bool :=
  w.reachable host port

/-- infer_ssh_target from src/sync.py: best-effort host and port from the
    remote URL. An scp-like remote (containing both a colon and an at sign
    and not starting with ssh://) yields the text between the first at sign
    and the following first colon with port 22; an ssh:// remote yields its
    authority host and explicit port (22 when absent or unparsable); every
    other remote falls back to the configured defaults. -/
def infer_ssh_target (remote : Option Str) (cfg : Config) : Str × Int :=
  match remote with
  | none => (cfg.network_host, cfg.network_port)
  | some r =>
    if chrIn ':' r && chrIn '@' r && !((str "ssh://").isPrefixOf r) then
      match splitFirst '@' r with
      | some hp =>
        (match splitFirst ':' hp.2 with
         | some hq => (hq.1, DEFAULT_NETWORK_PORT)
         | none => (hp.2, DEFAULT_NETWORK_PORT))
      | none => (cfg.network_host, cfg.network_port)
    else if (str "ssh://").isPrefixOf r then
      let rest := r.drop (str "ssh://").length
      let hostport0 :=
        match splitFirst '/' rest with
        | some ab => ab.1
        | none => rest
      let hostport :=
        if chrIn '@' hostport0 then
          match splitFirst '@' hostport0 with
          | some ab => ab.2
          | none => hostport0
        else hostport0
      if chrIn ':' hostport then
        match splitLast ':' hostport with
        | some hq =>
          (match pyInt hq.2 with
           | some p => (hq.1, p)
           | none => (hostport, DEFAULT_NETWORK_PORT))
        | none => (hostport, DEFAULT_NETWORK_PORT)
      else (hostport, DEFAULT_NETWORK_PORT)
    else (cfg.network_host, cfg.network_port)

/-- The effective push flag of one run: the entry flag unless the caller
    passed an override (sync_entry line 420 of src/sync.py). -/
def resolved_push (entry : Entry) (push_override : Option Bool) : Bool :=
  match push_override with
  | none => entry.push
  | some b => b

/-- Where one run of sync_entry returned, with the data the decision was
    made from (the Python function returns None; these labels record which
    return statement was taken). -/
inductive Outcome where
  | pushDisabled (committed : Bool)
  | noRemote (committed : Bool)
  | offline (host : Str) (port : Int)
  | fetchFailed
  | rebaseFailed
  | pushed (ahead : Int) (viaMissingOrigin : Bool)
  | upToDate (ahead : Int)
deriving DecidableEq

/-- The commit block duplicated at lines 430-435, 442-447 and 460-465 of
    src/sync.py: build the timestamped message, commit, and log when a
    commit was made. -/
def do_commit (w : World) (entry : Entry) : M Bool := do
  let message := entry.commit_message ++ str " (" ++ w.now ++ str ")"
  let didCommit ← commit_changes w message
  if didCommit then do
    logM (str "Committed changes in " ++ entry.path)
    Pure.pure didCommit
  else
    Pure.pure didCommit

/-- Lines 421-427 of sync_entry: bootstrap, remote reconciliation and
    branch alignment, returning the branch in effect. -/
def prepare_repo (w : World) (entry : Entry) : M Str := do
  ensure_repo w entry.path entry.branch entry.remote
  upsert_remote w entry.remote
  let cb ← current_branch w
  let branch0 := pyOrOptStr cb entry.branch
  if !(branch0 = entry.branch) then do
    set_branch w entry.branch
    Pure.pure entry.branch
  else
    Pure.pure branch0

/-- Lines 474-477 of sync_entry: push when ahead, or when the
    remote-tracking branch is absent; otherwise log up to date. The
    origin_branch_exists probe is only issued when ahead is not positive,
    matching the Python short-circuit. -/
def push_decision (w : World) (path branch : Str) (ahead : Int) : M Outcome := do
  if ahead > 0 then do
    push_changes w path branch
    Pure.pure (Outcome.pushed ahead false)
  else do
    let ob ← origin_branch_exists w branch
    if !ob then do
      push_changes w path branch
      Pure.pure (Outcome.pushed ahead true)
    else do
      logM (str "Up to date: " ++ path)
      Pure.pure (Outcome.upToDate ahead)

/-- Lines 467-477 of sync_entry: rebase when behind (recomputing the
    counts afterwards), then decide the push. -/
def divergence_and_push (w : World) (path branch : Str) : M Outcome := do
  let ab ← ahead_behind w branch
  if ab.2 > 0 then do
    let rok ← rebase_onto_remote w path branch
    if !rok then
      Pure.pure Outcome.rebaseFailed
    else do
      let ab2 ← ahead_behind w branch
      push_decision w path branch ab2.1
  else
    push_decision w path branch ab.1

/-- sync_entry from src/sync.py: the per-entry decision procedure. -/
def sync_entry (w : World) (entry : Entry) (cfg : Config)
    (push_override : Option Bool) : M Outcome := do
  let path := entry.path
  let push := resolved_push entry push_override
  let branch ← prepare_repo w entry
  if !push then do
    let hc ← has_changes w
    if hc then do
      let d ← do_commit w entry
      Pure.pure (Outcome.pushDisabled d)
    else do
      logM (str "Idle: " ++ path)
      Pure.pure (Outcome.pushDisabled false)
  else do
    let re ← remote_exists w
    if !re then do
      let hc ← has_changes w
      let d ← if hc then do_commit w entry else Pure.pure false
      logM (str "No remote configured for " ++ path ++ str "; skipping push")
      Pure.pure (Outcome.noRemote d)
    else do
      let hp := infer_ssh_target entry.remote cfg
      if !(online_host_port w hp.1 hp.2) then do
        logM (str "Offline; will push on next run (" ++ hp.1 ++ str ":" ++
          intToStr hp.2 ++ str ")")
        Pure.pure (Outcome.offline hp.1 hp.2)
      else do
        let fok ← fetch_remote w path branch
        if !fok then
          Pure.pure Outcome.fetchFailed
        else do
          let hc ← has_changes w
          if hc then do
            let _ ← do_commit w entry
            divergence_and_push w path branch
          else
            divergence_and_push w path branch

/-- Rendering of a caught exception in the sync_all error log line. -/
def pyErrMsg (e : PyErr) : Str :=
  match e with
  | PyErr.calledProcess r => str "CalledProcessError: " ++ r.stderr
  | PyErr.valueError => str "ValueError"

/-- The log line sync_all emits when one entry fails. -/
def errLogMsg (entry : Entry) (e : PyErr) : Str :=
  str "Error syncing " ++ entry.path ++ str ": " ++ pyErrMsg e

/-- The loop body of sync_all from src/sync.py: run each entry in order,
    catching any exception and logging it with the entry path. sync_all
    passes args.no_push_all (a plain boolean) as the push override. -/
def sync_entries (w : World) (cfg : Config) (noPushAll : Bool) :
    List Entry → M Unit
  | [] => Pure.pure ()
  | e :: rest => do
    M.tryCatch
      (do
        let _ ← sync_entry w e cfg (some noPushAll)
        Pure.pure ())
      (fun exc => logM (errLogMsg e exc))
    sync_entries w cfg noPushAll rest

/-- sync_all from src/sync.py (after loading the configuration): log when
    nothing is tracked, otherwise run every tracked entry. -/
def sync_all (w : World) (cfg : Config) (noPushAll : Bool) : M Unit := do
  if cfg.entries.isEmpty then
    logM (str "No tracked paths; add one first.")
  else
    sync_entries w cfg noPushAll cfg.entries

/-- Liveness of a process id as observed by os.kill(pid, 0): the process
    is gone (ProcessLookupError), alive and signalable, or alive but not
    accessible (PermissionError). -/
inductive ProcStatus where
  | dead
  | alive
  | aliveNoPerm
deriving DecidableEq

/-- The filesystem and process environment seen by pid_lock: the content
    of an existing lock file (none when the file is absent), the status of
    each process id, and whether the retried exclusive open hits a
    conflicting file again. -/
structure LockWorld where
  content : Option Str
  procStatus : Int → ProcStatus
  relockConflict : Bool

/-- Steps performed by the lock acquisition. -/
inductive LockEv where
  | openAttempt
  | readLock
  | probe (pid : Int)
  | unlink
  | writePid
deriving DecidableEq

/-- How the acquisition in pid_lock ended: the guarded scope was entered
    (after removing a stale lock or not), the invocation was aborted with a
    user-visible SystemExit message, or the retried exclusive open raised
    again and the error propagated. -/
inductive LockResult where
  | entered (removedStale : Bool)
  | sysExit (msg : Str)
  | openFailed
deriving DecidableEq

/-- pid_lock acquisition from src/sync.py (lines 130-159): exclusive
    create; on conflict read the recorded pid (unparsable content aborts),
    probe it, abort while it is alive or inaccessible, and on a dead owner
    remove the stale file and retry the exclusive open exactly once. -/
def pid_lock_acquire (lw : LockWorld) : LockResult × List LockEv :=
  match lw.content with
  | none => (LockResult.entered false, [LockEv.openAttempt, LockEv.writePid])
  | some content =>
    match pyInt (pyStrip content) with
    | none =>
      (LockResult.sysExit (str "Lockfile exists; aborting"),
       [LockEv.openAttempt, LockEv.readLock])
    | some pid =>
      match lw.procStatus pid with
      | ProcStatus.alive =>
        (LockResult.sysExit (str "Another git-sync instance is running"),
         [LockEv.openAttempt, LockEv.readLock, LockEv.probe pid])
      | ProcStatus.aliveNoPerm =>
        (LockResult.sysExit (str "Lockfile pid is not accessible; aborting"),
         [LockEv.openAttempt, LockEv.readLock, LockEv.probe pid])
      | ProcStatus.dead =>
        if lw.relockConflict then
          (LockResult.openFailed,
           [LockEv.openAttempt, LockEv.readLock, LockEv.probe pid,
            LockEv.unlink, LockEv.openAttempt])
        else
          (LockResult.entered true,
           [LockEv.openAttempt, LockEv.readLock, LockEv.probe pid,
            LockEv.unlink, LockEv.openAttempt, LockEv.writePid])

/-- Interval computed by Config.load (lines 88-90 of src/sync.py):
    the stored value (default 5) clamped from below to the minimum. -/
def load_interval (stored : Option Int) : Int :=
  max MIN_INTERVAL_MINUTES (stored.getD DEFAULT_INTERVAL_MINUTES)

/-- Interval computed by run_loop (lines 494-497 of src/sync.py):
    the Python expression args.interval or cfg.interval_minutes makes a
    missing or zero override fall back to the configuration value, and the
    result is then clamped from below to the minimum. -/
def effective_interval (argInterval : Option Int) (cfgInterval : Int) : Int :=
  let i :=
    match argInterval with
    | none => cfgInterval
    | some v => if v = 0 then cfgInterval else v
  if i < MIN_INTERVAL_MINUTES then MIN_INTERVAL_MINUTES else i

/-- Environment assumption for statements about the push step: the git
    remote listing is not changed by any command the procedure issues, so
    every query of it returns the same answer whenever it is made. -/
def RemoteStable (w : World) : Prop :=
  ∀ i j, w.git i remoteArgs = w.git j remoteArgs

/-- The answer every remote_exists query returns in a RemoteStable world:
    the listing succeeds and prints at least one remote name. -/
def remoteAnswer (w : World) : Bool :=
  decide ((w.git 0 remoteArgs).returncode = 0) &&
    !(pyStrip (w.git 0 remoteArgs).stdout).isEmpty

/-- Events that are neither a fetch, a push, a staging nor a commit. -/
def noSyncCmdEv (e : Ev) : Bool :=
  match e with
  | Ev.git (a :: _) =>
    !(a = str "fetch") && !(a = str "push") && !(a = str "add") && !(a = str "commit")
  | _ => true

/-- A computation that only ever appends quiet events (no fetch, push,
    staging or commit) to the trace, whatever state it starts from. -/
def TraceOK {α : Type} (m : M α) : Prop :=
  ∀ s, ∃ t, (M.run m s).2.trace = s.trace ++ t ∧ t.all noSyncCmdEv = true

/-- Concrete world for the offline scenario: the repository exists, lists
    the remote origin, sits on branch main, has a dirty working tree, and
    every connectivity probe fails. -/
def wC1 : World :=
  { git := fun _ args =>
      if args = remoteArgs then ⟨0, str "origin\n", str ""⟩
      else if args = [str "rev-parse", str "--abbrev-ref", str "HEAD"] then
        ⟨0, str "main\n", str ""⟩
      else if args = statusArgs then ⟨0, str " M f\n", str ""⟩
      else ⟨0, str "", str ""⟩,
    repoExists := true,
    reachable := fun _ _ => false,
    now := str "T" }

/-- Concrete entry with push enabled and a remote configured. -/
def eC1 : Entry :=
  { path := str "/r", remote := some (str "git@example.com:o/r.git"),
    branch := str "main", push := true, commit_message := str "Auto-sync" }

/-- Concrete configuration used with eC1. -/
def cfgC1 : Config :=
  { entries := [eC1], interval_minutes := 5, network_host := str "github.com",
    network_port := 22 }

/-- Concrete world where the tree is dirty, staging succeeds and the commit
    command is declined with exit status 1. -/
def wC2 : World :=
  { git := fun _ args =>
      if args = statusArgs then ⟨0, str " M f\n", str ""⟩
      else if args = [str "add", str "-A"] then ⟨0, str "", str ""⟩
      else if args.head? = some (str "commit") then
        ⟨1, str "", str "nothing to commit"⟩
      else ⟨0, str "", str ""⟩,
    repoExists := true,
    reachable := fun _ _ => true,
    now := str "T" }

/-- Concrete world whose repository has one remote named upstream and none
    named origin. -/
def wC3 : World :=
  { git := fun _ args =>
      if args = remoteArgs then ⟨0, str "upstream\n", str ""⟩
      else ⟨0, str "", str ""⟩,
    repoExists := true,
    reachable := fun _ _ => true,
    now := str "T" }

/-- Concrete world whose repository has no remote at all. -/
def wC3w : World :=
  { git := fun _ args =>
      if args = remoteArgs then ⟨0, str "", str ""⟩
      else ⟨0, str "", str ""⟩,
    repoExists := true,
    reachable := fun _ _ => true,
    now := str "T" }

/-- Concrete world without the remote-tracking branch origin/main but with
    plenty of local commits (the rev-list answer would report 5). -/
def wC4 : World :=
  { git := fun _ args =>
      if args = showRefArgs (str "main") then ⟨1, str "", str "fatal: not a ref"⟩
      else if args = revListArgs (str "main") then ⟨0, str "0\t5", str ""⟩
      else ⟨0, str "", str ""⟩,
    repoExists := true,
    reachable := fun _ _ => true,
    now := str "T" }

/-- Concrete world with a remote configured and no remote-tracking branch
    for main yet. -/
def wC5 : World :=
  { git := fun _ args =>
      if args = remoteArgs then ⟨0, str "origin\n", str ""⟩
      else if args = showRefArgs (str "main") then ⟨1, str "", str ""⟩
      else ⟨0, str "", str ""⟩,
    repoExists := true,
    reachable := fun _ _ => true,
    now := str "T" }

/-- Concrete world where every git command fails, so the bootstrap of a
    missing repository raises CalledProcessError. -/
def wC6 : World :=
  { git := fun _ _ => ⟨1, str "", str "boom"⟩,
    repoExists := false,
    reachable := fun _ _ => true,
    now := str "T" }

/-- Concrete entry whose bootstrap fails in wC6. -/
def eC6 : Entry :=
  { path := str "/r", remote := none, branch := str "main", push := true,
    commit_message := str "Auto-sync" }

/-- Concrete configuration used with eC6. -/
def cfgC6 : Config :=
  { entries := [eC6], interval_minutes := 5, network_host := str "github.com",
    network_port := 22 }

/-- The exception sync_entry raises in wC6. -/
def exC6 : PyErr := PyErr.calledProcess ⟨1, str "", str "boom"⟩

/-- The trace sync_entry leaves behind in wC6 before raising. -/
def trC6 : List Ev :=
  [Ev.log (str "Initializing repo at /r"), Ev.mkdir,
   Ev.git [str "init", str "-b", str "main"], Ev.git [str "init"]]

/-- Concrete lock environment: an existing lock file recording pid 123,
    every process dead, and a conflict-free retry. -/
def lwC7 : LockWorld :=
  { content := some (str "123\n"),
    procStatus := fun _ => ProcStatus.dead,
    relockConflict := false }

/-- Concrete configuration with recognizable default host and port. -/
def cfgC8 : Config :=
  { entries := [], interval_minutes := 5, network_host := str "fallback.host",
    network_port := 2022 }

/-- Concrete world where origin/main exists and the rev-list count output
    has two fields that are not integers. -/
def wC10 : World :=
  { git := fun _ args =>
      if args = showRefArgs (str "main") then ⟨0, str "", str ""⟩
      else if args = revListArgs (str "main") then ⟨0, str "x y", str ""⟩
      else ⟨0, str "", str ""⟩,
    repoExists := true,
    reachable := fun _ _ => true,
    now := str "T" }

/-- Concrete world where origin/main exists and the rev-list count output
    is the well-formed two-column answer 1 behind, 2 ahead. -/
def wC10w : World :=
  { git := fun _ args =>
      if args = showRefArgs (str "main") then ⟨0, str "", str ""⟩
      else if args = revListArgs (str "main") then ⟨0, str "1\t2", str ""⟩
      else ⟨0, str "", str ""⟩,
    repoExists := true,
    reachable := fun _ _ => true,
    now := str "T" }

theorem M.run_pure {α : Type} (a : α) (s : St) :
    M.run (Pure.pure a : M α) s = (Except.ok a, s) := rfl

theorem M.run_bind {α β : Type} (m : M α) (f : α → M β) (s : St) :
    M.run (m >>= f) s =
      match M.run m s with
      | (Except.ok a, s1) => M.run (f a) s1
      | (Except.error e, s1) => (Except.error e, s1) := rfl

theorem M.run_tryCatch {α : Type} (m : M α) (h : PyErr → M α) (s : St) :
    M.run (M.tryCatch m h) s =
      match M.run m s with
      | (Except.ok a, s1) => (Except.ok a, s1)
      | (Except.error e, s1) => M.run (h e) s1 := rfl

theorem chrIn_append (c : Char) (u v : Str) :
    chrIn c (u ++ v) = (chrIn c u || chrIn c v) := by
  induction u with
  | nil => simp [chrIn]
  | cons x xs ih => simp [chrIn, ih, Bool.or_assoc]

theorem chrIn_reverse (c : Char) (s : Str) : chrIn c s.reverse = chrIn c s := by
  induction s with
  | nil => rfl
  | cons x xs ih => simp [chrIn, chrIn_append, ih, Bool.or_comm]

theorem splitFirst_not_mem (c : Char) (u v : Str) (h : chrIn c u = false) :
    splitFirst c (u ++ c :: v) = some (u, v) := by
  induction u with
  | nil => simp [splitFirst]
  | cons x xs ih =>
    simp only [chrIn, Bool.or_eq_false_iff, decide_eq_false_iff_not] at h
    simp [splitFirst, h.1, ih h.2]

theorem splitLast_not_mem (c : Char) (u v : Str) (h : chrIn c v = false) :
    splitLast c (u ++ c :: v) = some (u, v) := by
  unfold splitLast
  have hrev : (u ++ c :: v).reverse = v.reverse ++ c :: u.reverse := by
    simp [List.reverse_append, List.reverse_cons, List.append_assoc]
  rw [hrev, splitFirst_not_mem c v.reverse u.reverse (by rw [chrIn_reverse]; exact h)]
  simp

theorem isPrefixOf_append_self (p r : Str) : p.isPrefixOf (p ++ r) = true := by
  induction p with
  | nil => simp [List.isPrefixOf]
  | cons x xs ih => simp [List.isPrefixOf, ih]

theorem remote_exists_eval (w : World) (hw : RemoteStable w) (s : St) :
    M.run (remote_exists w) s =
      (Except.ok (remoteAnswer w), ⟨s.calls + 1, s.trace ++ [Ev.git remoteArgs]⟩) := by
  have h := hw s.calls 0
  by_cases hrc : (w.git 0 remoteArgs).returncode = 0 <;>
    simp [remote_exists, catchCPE, M.tryCatch, run_git, M.run, Bind.bind, M.bind,
      Pure.pure, M.pure, remoteAnswer, h, hrc]

theorem push_changes_pushes (w : World) (hw : RemoteStable w)
    (ha : remoteAnswer w = true) (path branch : Str) (s : St) :
    M.run (push_changes w path branch) s =
      (Except.ok (),
       ⟨s.calls + 2, s.trace ++ [Ev.git remoteArgs, Ev.git (pushArgs branch)]⟩) := by
  have h1 : (remote_exists w) s =
      (Except.ok (remoteAnswer w), ⟨s.calls + 1, s.trace ++ [Ev.git remoteArgs]⟩) :=
    remote_exists_eval w hw s
  simp [push_changes, M.run, Bind.bind, M.bind, h1, ha, catchCPE, M.tryCatch, run_git,
    Pure.pure, M.pure]

theorem sync_entries_ok (w : World) (cfg : Config) (b : Bool) :
    ∀ (l : List Entry) (s : St), (M.run (sync_entries w cfg b l) s).1 = Except.ok () := by
  intro l
  induction l with
  | nil => intro s; rfl
  | cons e rest ih =>
    intro s
    simp only [sync_entries, M.run, Bind.bind, M.bind, M.tryCatch]
    rcases h : (sync_entry w e cfg (some b)) s with ⟨r, s1⟩
    cases r with
    | ok a =>
      simp only [M.run] at ih
      simp [h, Pure.pure, M.pure, ih]
    | error ex =>
      simp only [M.run] at ih
      simp [h, Pure.pure, M.pure, logM, ih]

theorem traceOK_pure {α : Type} (a : α) : TraceOK (Pure.pure a : M α) :=
  fun _ => ⟨[], by simp [M.run, Pure.pure, M.pure], rfl⟩

theorem traceOK_bind {α β : Type} {m : M α} {f : α → M β}
    (hm : TraceOK m) (hf : ∀ a, TraceOK (f a)) : TraceOK (m >>= f) := by
  intro s
  obtain ⟨t1, ht1, ha1⟩ := hm s
  rcases hr : (m : M α) s with ⟨r, s1⟩
  simp only [M.run, hr] at ht1
  cases r with
  | ok a =>
    obtain ⟨t2, ht2, ha2⟩ := hf a s1
    refine ⟨t1 ++ t2, ?_, ?_⟩
    · simp only [M.run, Bind.bind, M.bind, hr]
      simp only [M.run] at ht2
      rw [ht2, ht1, List.append_assoc]
    · simp [List.all_append, ha1, ha2]
  | error ex =>
    refine ⟨t1, ?_, ha1⟩
    simp only [M.run, Bind.bind, M.bind, hr]
    exact ht1

theorem traceOK_throwErr {α : Type} (e : PyErr) : TraceOK (M.throwErr e : M α) :=
  fun _ => ⟨[], by simp [M.run, M.throwErr], rfl⟩

theorem traceOK_tryCatch {α : Type} {m : M α} {h : PyErr → M α}
    (hm : TraceOK m) (hh : ∀ e, TraceOK (h e)) : TraceOK (M.tryCatch m h) := by
  intro s
  obtain ⟨t1, ht1, ha1⟩ := hm s
  rcases hr : (m : M α) s with ⟨r, s1⟩
  simp only [M.run, hr] at ht1
  cases r with
  | ok a => exact ⟨t1, by simp only [M.run, M.tryCatch, hr]; exact ht1, ha1⟩
  | error ex =>
    obtain ⟨t2, ht2, ha2⟩ := hh ex s1
    refine ⟨t1 ++ t2, ?_, ?_⟩
    · simp only [M.run, M.tryCatch, hr]
      simp only [M.run] at ht2
      rw [ht2, ht1, List.append_assoc]
    · simp [List.all_append, ha1, ha2]

theorem traceOK_catchCPE {α : Type} {m : M α} {h : GitResult → M α}
    (hm : TraceOK m) (hh : ∀ r, TraceOK (h r)) : TraceOK (catchCPE m h) := by
  apply traceOK_tryCatch hm
  intro e
  cases e with
  | calledProcess r => exact hh r
  | valueError => exact traceOK_throwErr _

theorem traceOK_logM (msg : Str) : TraceOK (logM msg) :=
  fun _ => ⟨[Ev.log msg], by simp [M.run, logM], rfl⟩

theorem traceOK_mkdirM : TraceOK mkdirM :=
  fun _ => ⟨[Ev.mkdir], by simp [M.run, mkdirM], rfl⟩

theorem traceOK_run_git {w : World} {args : List Str} {check : Bool}
    (hargs : noSyncCmdEv (Ev.git args) = true) : TraceOK (run_git w args check) :=
  fun _ => ⟨[Ev.git args], by simp [M.run, run_git], by simp [hargs]⟩

theorem traceOK_ite {α : Type} {c : Prop} [Decidable c] {m1 m2 : M α}
    (h1 : TraceOK m1) (h2 : TraceOK m2) : TraceOK (if c then m1 else m2) := by
  by_cases hc : c <;> simp [hc, h1, h2]

theorem traceOK_ensure_repo (w : World) (path branch : Str) (remote : Option Str) :
    TraceOK (ensure_repo w path branch remote) := by
  unfold ensure_repo
  refine traceOK_ite (traceOK_pure _) ?_
  refine traceOK_bind (traceOK_logM _) fun _ => ?_
  refine traceOK_bind traceOK_mkdirM fun _ => ?_
  refine traceOK_bind (traceOK_catchCPE ?_ ?_) fun _ => ?_
  · exact traceOK_bind (traceOK_run_git rfl) fun _ => traceOK_pure _
  · intro _
    exact traceOK_bind (traceOK_run_git rfl) fun _ =>
      traceOK_bind (traceOK_run_git rfl) fun _ => traceOK_pure _
  · cases remote with
    | some r => exact traceOK_bind (traceOK_run_git rfl) fun _ => traceOK_pure _
    | none => exact traceOK_pure _

theorem traceOK_current_branch (w : World) : TraceOK (current_branch w) := by
  unfold current_branch
  refine traceOK_catchCPE ?_ fun _ => traceOK_pure _
  exact traceOK_bind (traceOK_run_git rfl) fun _ => traceOK_pure _

theorem traceOK_set_branch (w : World) (branch : Str) : TraceOK (set_branch w branch) := by
  unfold set_branch
  exact traceOK_bind (traceOK_run_git rfl) fun _ => traceOK_pure _

theorem traceOK_remote_exists (w : World) : TraceOK (remote_exists w) := by
  unfold remote_exists
  refine traceOK_catchCPE ?_ fun _ => traceOK_pure _
  exact traceOK_bind (traceOK_run_git rfl) fun _ => traceOK_pure _

theorem traceOK_upsert_remote (w : World) (remote : Option Str) :
    TraceOK (upsert_remote w remote) := by
  unfold upsert_remote
  cases remote with
  | none => exact traceOK_pure _
  | some r =>
    refine traceOK_bind (traceOK_remote_exists w) fun re => ?_
    refine traceOK_ite (traceOK_pure _) ?_
    exact traceOK_bind (traceOK_run_git rfl) fun _ => traceOK_pure _

theorem traceOK_prepare_repo (w : World) (entry : Entry) :
    TraceOK (prepare_repo w entry) := by
  unfold prepare_repo
  refine traceOK_bind (traceOK_ensure_repo w _ _ _) fun _ => ?_
  refine traceOK_bind (traceOK_upsert_remote w _) fun _ => ?_
  refine traceOK_bind (traceOK_current_branch w) fun cb => ?_
  refine traceOK_ite ?_ (traceOK_pure _)
  exact traceOK_bind (traceOK_set_branch w _) fun _ => traceOK_pure _

theorem sync_entry_offline_run (w : World) (e : Entry) (cfg : Config) (po : Option Bool)
    (hpush : resolved_push e po = true) (hw : RemoteStable w) (ha : remoteAnswer w = true)
    (hoff : online_host_port w (infer_ssh_target e.remote cfg).1
              (infer_ssh_target e.remote cfg).2 = false) (s : St) :
    M.run (sync_entry w e cfg po) s =
      match M.run (prepare_repo w e) s with
      | (Except.error ex, s1) => (Except.error ex, s1)
      | (Except.ok _, s1) =>
        (Except.ok (Outcome.offline (infer_ssh_target e.remote cfg).1
            (infer_ssh_target e.remote cfg).2),
         ⟨s1.calls + 1,
          s1.trace ++ [Ev.git remoteArgs,
            Ev.log (str "Offline; will push on next run (" ++
              (infer_ssh_target e.remote cfg).1 ++ str ":" ++
              intToStr (infer_ssh_target e.remote cfg).2 ++ str ")")]⟩) := by
  rcases hprep : (prepare_repo w e) s with ⟨r1, s1⟩
  cases r1 with
  | error ex =>
    simp only [M.run, sync_entry, Bind.bind, M.bind, hprep]
  | ok br =>
    have hre : (remote_exists w) s1 =
        (Except.ok (remoteAnswer w), ⟨s1.calls + 1, s1.trace ++ [Ev.git remoteArgs]⟩) :=
      remote_exists_eval w hw s1
    simp only [M.run, sync_entry, Bind.bind, M.bind, hprep, hpush, Bool.not_true,
      Bool.false_eq_true, if_false, hre, ha, hoff, Bool.not_false, if_true, logM,
      Pure.pure, M.pure, List.append_assoc, List.singleton_append]

/-- C1 (amended): for an entry whose effective push flag is on, in a world
    whose repository lists a remote and whose connectivity probe reports
    the inferred host and port unreachable, one run of sync_entry issues no
    fetch, no push, no staging and no commit command at all, and when it
    returns normally it returns the offline outcome — the local commit is
    deferred to the next pass along with the network work. -/
theorem C1_offline_defers_all_work (w : World) (e : Entry) (cfg : Config)
    (po : Option Bool) (s : St)
    (hpush : resolved_push e po = true) (hw : RemoteStable w) (ha : remoteAnswer w = true)
    (hoff : online_host_port w (infer_ssh_target e.remote cfg).1
              (infer_ssh_target e.remote cfg).2 = false) :
    (∃ t, (M.run (sync_entry w e cfg po) s).2.trace = s.trace ++ t ∧
       t.all noSyncCmdEv = true)
  ∧ (∀ o, (M.run (sync_entry w e cfg po) s).1 = Except.ok o →
       o = Outcome.offline (infer_ssh_target e.remote cfg).1
             (infer_ssh_target e.remote cfg).2) := by
  have hrun := sync_entry_offline_run w e cfg po hpush hw ha hoff s
  obtain ⟨t1, ht1, ha1⟩ := traceOK_prepare_repo w e s
  rcases hprep : M.run (prepare_repo w e) s with ⟨r1, s1⟩
  rw [hprep] at hrun ht1
  cases r1 with
  | error ex =>
    rw [hrun]
    exact ⟨⟨t1, ht1, ha1⟩, fun o ho => absurd ho (by simp)⟩
  | ok br =>
    rw [hrun]
    refine ⟨⟨t1 ++ [Ev.git remoteArgs,
      Ev.log (str "Offline; will push on next run (" ++
        (infer_ssh_target e.remote cfg).1 ++ str ":" ++
        intToStr (infer_ssh_target e.remote cfg).2 ++ str ")")], ?_, ?_⟩, ?_⟩
    · replace ht1 : s1.trace = s.trace ++ t1 := ht1
      simp only [ht1, List.append_assoc]
    · simp only [List.all_append, ha1, Bool.true_and]
      rfl
    · intro o ho
      simp only [Except.ok.injEq] at ho
      exact ho.symm

/-- C1 counterexample: in wC1 the entry eC1 has push enabled and a remote
    configured, the repository reports uncommitted changes and the probe
    reports the host unreachable — yet the run ends in the offline outcome
    having issued no commit or staging command at all, where the claim
    requires the local commit to still happen. -/
theorem C1_counterexample :
    (M.run (sync_entry wC1 eC1 cfgC1 none) ⟨0, []⟩).1 =
      Except.ok (Outcome.offline (str "example.com") 22)
  ∧ (M.run (sync_entry wC1 eC1 cfgC1 none) ⟨0, []⟩).2.trace.all noSyncCmdEv = true
  ∧ eC1.push = true
  ∧ ¬eC1.remote = none
  ∧ remoteAnswer wC1 = true
  ∧ (pyStrip (wC1.git 0 statusArgs).stdout).isEmpty = false
  ∧ wC1.reachable (str "example.com") 22 = false :=
  ⟨rfl, rfl, rfl, by decide, rfl, rfl, rfl⟩

/-- C1 witness: the amended theorem applied to the concrete offline world. -/
theorem C1_witness :
    (∃ t, (M.run (sync_entry wC1 eC1 cfgC1 none) ⟨0, []⟩).2.trace = [] ++ t ∧
       t.all noSyncCmdEv = true)
  ∧ (∀ o, (M.run (sync_entry wC1 eC1 cfgC1 none) ⟨0, []⟩).1 = Except.ok o →
       o = Outcome.offline (infer_ssh_target eC1.remote cfgC1).1
             (infer_ssh_target eC1.remote cfgC1).2) :=
  C1_offline_defers_all_work wC1 eC1 cfgC1 none ⟨0, []⟩ rfl (fun _ _ => rfl) rfl rfl

/-- C2 (amended): on a tree with uncommitted changes and successful
    staging, commit_changes never raises even when the commit command is
    declined with a nonzero exit status, but it reports that a commit
    happened (returns true) regardless of that exit status. -/
theorem C2_commit_decline_reported_as_committed (w : World) (m : Str) (s : St)
    (hdirty : (pyStrip (w.git s.calls statusArgs).stdout).isEmpty = false)
    (hadd : (w.git (s.calls + 1) [str "add", str "-A"]).returncode = 0) :
    M.run (commit_changes w m) s =
      (Except.ok true,
       ⟨s.calls + 3, s.trace ++ [Ev.git statusArgs, Ev.git [str "add", str "-A"],
                                 Ev.git [str "commit", str "-m", m]]⟩) := by
  simp [commit_changes, has_changes, run_git, M.run, Bind.bind, M.bind, Pure.pure,
    M.pure, hdirty, hadd]

/-- C2 counterexample: in wC2 the tree is dirty and the commit command
    exits with status 1, yet commit_changes returns true — not the false
    (no commit happened) that the claim requires. -/
theorem C2_counterexample :
    (M.run (commit_changes wC2 (str "m")) ⟨0, []⟩).1 = Except.ok true
  ∧ (wC2.git 2 [str "commit", str "-m", str "m"]).returncode = 1
  ∧ (pyStrip (wC2.git 0 statusArgs).stdout).isEmpty = false
  ∧ ¬(M.run (commit_changes wC2 (str "m")) ⟨0, []⟩).1 = Except.ok false := by
  refine ⟨rfl, rfl, rfl, ?_⟩
  rw [show (M.run (commit_changes wC2 (str "m")) ⟨0, []⟩).1 = Except.ok true from rfl]
  simp

/-- C2 witness: the amended theorem applied to the concrete declining
    world. -/
theorem C2_witness :
    M.run (commit_changes wC2 (str "m")) ⟨0, []⟩ =
      (Except.ok true,
       ⟨3, [Ev.git statusArgs, Ev.git [str "add", str "-A"],
            Ev.git [str "commit", str "-m", str "m"]]⟩) :=
  C2_commit_decline_reported_as_committed wC2 (str "m") ⟨0, []⟩ rfl rfl

/-- C3 (amended): upsert_remote does nothing without a configured remote;
    with one it registers it as origin exactly when the remote listing
    fails or prints nothing — that is, when the repository has no remote at
    all, not when it merely lacks one named origin — and the only commands
    it ever issues are the listing and a single remote add, so an existing
    remote is never overwritten. -/
theorem C3_upsert_remote_only_when_no_remotes (w : World) (s : St) (u : Str) :
    (M.run (upsert_remote w none) s = (Except.ok (), s))
  ∧ ((w.git s.calls remoteArgs).returncode = 0 →
      (pyStrip (w.git s.calls remoteArgs).stdout).isEmpty = false →
      M.run (upsert_remote w (some u)) s =
        (Except.ok (), ⟨s.calls + 1, s.trace ++ [Ev.git remoteArgs]⟩))
  ∧ ((¬(w.git s.calls remoteArgs).returncode = 0 ∨
        (pyStrip (w.git s.calls remoteArgs).stdout).isEmpty = true) →
      M.run (upsert_remote w (some u)) s =
        (Except.ok (),
         ⟨s.calls + 2, s.trace ++ [Ev.git remoteArgs,
                                   Ev.git [str "remote", str "add", str "origin", u]]⟩)) := by
  refine ⟨rfl, fun hrc hne => ?_, fun hbad => ?_⟩
  · simp [upsert_remote, remote_exists, catchCPE, M.tryCatch, run_git, M.run,
      Bind.bind, M.bind, Pure.pure, M.pure, hrc, hne]
  · rcases hbad with hrc | hemp
    · simp [upsert_remote, remote_exists, catchCPE, M.tryCatch, run_git, M.run,
        Bind.bind, M.bind, Pure.pure, M.pure, hrc]
    · by_cases hrc : (w.git s.calls remoteArgs).returncode = 0 <;>
        simp [upsert_remote, remote_exists, catchCPE, M.tryCatch, run_git, M.run,
          Bind.bind, M.bind, Pure.pure, M.pure, hrc, hemp]

/-- C3 counterexample: wC3 lists the remote upstream and no origin, yet
    upsert_remote issues no registration — where the claim requires origin
    to be registered exactly when no remote named origin exists. -/
theorem C3_counterexample :
    M.run (upsert_remote wC3 (some (str "git@h:p"))) ⟨0, []⟩ =
      (Except.ok (), ⟨1, [Ev.git remoteArgs]⟩)
  ∧ ¬(str "origin") ∈ pySplitWS ((wC3.git 0 remoteArgs).stdout)
  ∧ (pyStrip (wC3.git 0 remoteArgs).stdout).isEmpty = false :=
  ⟨rfl, by decide, rfl⟩

/-- C3 witness: the amended theorem applied to a repository with no
    remotes, where the registration does happen. -/
theorem C3_witness :
    M.run (upsert_remote wC3w (some (str "ssh://h/p"))) ⟨0, []⟩ =
      (Except.ok (),
       ⟨2, [Ev.git remoteArgs,
            Ev.git [str "remote", str "add", str "origin", str "ssh://h/p"]]⟩) :=
  (C3_upsert_remote_only_when_no_remotes wC3w ⟨0, []⟩ (str "ssh://h/p")).2.2 (Or.inr rfl)

/-- C4: ahead_behind returns (0, 0) whenever the show-ref probe for the
    remote-tracking branch fails, for every world (hence regardless of how
    many local commits exist) — the rev-list call is never even issued. -/
theorem C4_ahead_behind_zero_without_remote_tracking (w : World) (branch : Str) (s : St)
    (h : ¬(w.git s.calls (showRefArgs branch)).returncode = 0) :
    M.run (ahead_behind w branch) s =
      (Except.ok (0, 0), ⟨s.calls + 1, s.trace ++ [Ev.git (showRefArgs branch)]⟩) := by
  simp [ahead_behind, origin_branch_exists, run_git, M.run, Bind.bind, M.bind,
    Pure.pure, M.pure, h]

/-- C4 witness: the theorem applied to a world without origin/main whose
    rev-list answer would report five local commits. -/
theorem C4_witness :
    M.run (ahead_behind wC4 (str "main")) ⟨0, []⟩ =
      (Except.ok (0, 0), ⟨1, [Ev.git (showRefArgs (str "main"))]⟩) :=
  C4_ahead_behind_zero_without_remote_tracking wC4 (str "main") ⟨0, []⟩ (by decide)

/-- C5: at the push decision, under the environment assumption that the
    remote listing is stable and reports a remote, a push command is issued
    exactly when the ahead count is positive or the remote-tracking branch
    is absent; otherwise the up-to-date line is logged and no push command
    appears in the trace. The origin probe is only issued when ahead is not
    positive, matching the Python short-circuit. -/
theorem C5_push_iff_ahead_or_missing_origin (w : World) (path branch : Str)
    (ahead : Int) (s : St) (hw : RemoteStable w) (ha : remoteAnswer w = true) :
    (ahead > 0 →
      M.run (push_decision w path branch ahead) s =
        (Except.ok (Outcome.pushed ahead false),
         ⟨s.calls + 2, s.trace ++ [Ev.git remoteArgs, Ev.git (pushArgs branch)]⟩))
  ∧ (¬ahead > 0 → ¬(w.git s.calls (showRefArgs branch)).returncode = 0 →
      M.run (push_decision w path branch ahead) s =
        (Except.ok (Outcome.pushed ahead true),
         ⟨s.calls + 3, s.trace ++ [Ev.git (showRefArgs branch), Ev.git remoteArgs,
                                   Ev.git (pushArgs branch)]⟩))
  ∧ (¬ahead > 0 → (w.git s.calls (showRefArgs branch)).returncode = 0 →
      M.run (push_decision w path branch ahead) s =
        (Except.ok (Outcome.upToDate ahead),
         ⟨s.calls + 1, s.trace ++ [Ev.git (showRefArgs branch),
                                   Ev.log (str "Up to date: " ++ path)]⟩)) := by
  refine ⟨fun hgt => ?_, fun hle hrc => ?_, fun hle hrc => ?_⟩
  · have h1 : (push_changes w path branch) s =
        (Except.ok (),
         ⟨s.calls + 2, s.trace ++ [Ev.git remoteArgs, Ev.git (pushArgs branch)]⟩) :=
      push_changes_pushes w hw ha path branch s
    simp [push_decision, M.run, Bind.bind, M.bind, hgt, h1, Pure.pure, M.pure]
  · have h1 : (push_changes w path branch)
        ⟨s.calls + 1, s.trace ++ [Ev.git (showRefArgs branch)]⟩ =
        (Except.ok (),
         ⟨s.calls + 1 + 2, (s.trace ++ [Ev.git (showRefArgs branch)]) ++
            [Ev.git remoteArgs, Ev.git (pushArgs branch)]⟩) :=
      push_changes_pushes w hw ha path branch _
    simp [push_decision, origin_branch_exists, run_git, M.run, Bind.bind, M.bind,
      hle, hrc, h1, Pure.pure, M.pure]
  · simp [push_decision, origin_branch_exists, run_git, logM, M.run, Bind.bind,
      M.bind, hle, hrc, Pure.pure, M.pure]

/-- C5 witness: the theorem applied to a world with a remote but no
    remote-tracking branch and an ahead count of zero: the first push
    establishing the upstream is issued. -/
theorem C5_witness :
    M.run (push_decision wC5 (str "/r") (str "main") 0) ⟨0, []⟩ =
      (Except.ok (Outcome.pushed 0 true),
       ⟨3, [Ev.git (showRefArgs (str "main")), Ev.git remoteArgs,
            Ev.git (pushArgs (str "main"))]⟩) :=
  (C5_push_iff_ahead_or_missing_origin wC5 (str "/r") (str "main") 0 ⟨0, []⟩
      (fun _ _ => rfl) rfl).2.1 (by decide) (by decide)

/-- C6: when one entry of the batch raises, sync_entries catches the
    exception, appends a log line carrying that entry's path, continues
    with the remaining entries from exactly that state, and the whole batch
    always returns normally. -/
theorem C6_sync_all_catches_and_continues (w : World) (cfg : Config) (b : Bool)
    (e : Entry) (rest : List Entry) (s s1 : St) (ex : PyErr)
    (h : M.run (sync_entry w e cfg (some b)) s = (Except.error ex, s1)) :
    (M.run (sync_entries w cfg b (e :: rest)) s =
       M.run (sync_entries w cfg b rest) ⟨s1.calls, s1.trace ++ [Ev.log (errLogMsg e ex)]⟩)
  ∧ (M.run (sync_entries w cfg b (e :: rest)) s).1 = Except.ok () := by
  constructor
  · simp only [M.run] at h
    simp [sync_entries, M.run, Bind.bind, M.bind, M.tryCatch, h, logM]
  · exact sync_entries_ok w cfg b (e :: rest) s

/-- C6 witness: the theorem applied to a world whose bootstrap fails for
    every entry; the failing first entry is logged and the second entry is
    still processed. -/
theorem C6_witness :
    (M.run (sync_entries wC6 cfgC6 false [eC6, eC6]) ⟨0, []⟩ =
       M.run (sync_entries wC6 cfgC6 false [eC6])
         ⟨2, trC6 ++ [Ev.log (errLogMsg eC6 exC6)]⟩)
  ∧ (M.run (sync_entries wC6 cfgC6 false [eC6, eC6]) ⟨0, []⟩).1 = Except.ok () :=
  C6_sync_all_catches_and_continues wC6 cfgC6 false eC6 [eC6] ⟨0, []⟩ ⟨2, trC6⟩ exC6 rfl

/-- C7: on a lock conflict with a parseable recorded pid, the acquisition
    reads the lock file and probes the pid; while that process is alive (or
    inaccessible) it aborts with a SystemExit message without retrying the
    open, and when the process is dead it removes the stale file and
    retries the exclusive open exactly once — entering on success and
    propagating the open failure otherwise. -/
theorem C7_lock_conflict_behavior (lw : LockWorld) (content : Str) (pid : Int)
    (hc : lw.content = some content) (hp : pyInt (pyStrip content) = some pid) :
    LockEv.readLock ∈ (pid_lock_acquire lw).2
  ∧ (¬lw.procStatus pid = ProcStatus.dead →
       (∃ m, (pid_lock_acquire lw).1 = LockResult.sysExit m) ∧
       (pid_lock_acquire lw).2.count LockEv.openAttempt = 1)
  ∧ (lw.procStatus pid = ProcStatus.dead →
       LockEv.unlink ∈ (pid_lock_acquire lw).2 ∧
       (pid_lock_acquire lw).2.count LockEv.openAttempt = 2 ∧
       (lw.relockConflict = true → (pid_lock_acquire lw).1 = LockResult.openFailed) ∧
       (lw.relockConflict = false →
          (pid_lock_acquire lw).1 = LockResult.entered true)) := by
  refine ⟨?_, ?_, ?_⟩
  · rcases hps : lw.procStatus pid with _ | _ | _ <;>
      rcases hrc : lw.relockConflict with _ | _ <;>
        simp [pid_lock_acquire, hc, hp, hps, hrc]
  · rcases hps : lw.procStatus pid with _ | _ | _
    · exact fun hne => absurd rfl hne
    · intro _
      refine ⟨⟨str "Another git-sync instance is running", ?_⟩, ?_⟩ <;>
        simp [pid_lock_acquire, hc, hp, hps, List.count_cons]
    · intro _
      refine ⟨⟨str "Lockfile pid is not accessible; aborting", ?_⟩, ?_⟩ <;>
        simp [pid_lock_acquire, hc, hp, hps, List.count_cons]
  · rcases hps : lw.procStatus pid with _ | _ | _
    · intro _
      rcases hrc : lw.relockConflict with _ | _ <;>
        simp [pid_lock_acquire, hc, hp, hps, hrc, List.count_cons]
    · exact fun hd => absurd hd (by simp)
    · exact fun hd => absurd hd (by simp)

/-- C7 witness: the theorem applied to a stale lock recording pid 123 with
    that process dead and a conflict-free retry. -/
theorem C7_witness :
    LockEv.readLock ∈ (pid_lock_acquire lwC7).2
  ∧ (¬lwC7.procStatus 123 = ProcStatus.dead →
       (∃ m, (pid_lock_acquire lwC7).1 = LockResult.sysExit m) ∧
       (pid_lock_acquire lwC7).2.count LockEv.openAttempt = 1)
  ∧ (lwC7.procStatus 123 = ProcStatus.dead →
       LockEv.unlink ∈ (pid_lock_acquire lwC7).2 ∧
       (pid_lock_acquire lwC7).2.count LockEv.openAttempt = 2 ∧
       (lwC7.relockConflict = true → (pid_lock_acquire lwC7).1 = LockResult.openFailed) ∧
       (lwC7.relockConflict = false →
          (pid_lock_acquire lwC7).1 = LockResult.entered true)) :=
  C7_lock_conflict_behavior lwC7 (str "123\n") 123 rfl rfl

/-- C8 (amended): infer_ssh_target falls back to the configured defaults
    when the remote is absent; it recognizes the scp-like form (any remote
    containing both an at sign and a colon and not starting with ssh://) as
    the text between the first at sign and the following first colon with
    port 22; it recognizes ssh:// remotes with and without an explicit
    port; and every other remote — including URLs of a non-ssh scheme —
    falls back to the configured default host and port. -/
theorem C8_infer_ssh_target_forms (cfg : Config) :
    (infer_ssh_target none cfg = (cfg.network_host, cfg.network_port))
  ∧ (∀ u h p, chrIn '@' u = false → chrIn ':' h = false →
       (str "ssh://").isPrefixOf (u ++ ('@' :: (h ++ (':' :: p)))) = false →
       infer_ssh_target (some (u ++ ('@' :: (h ++ (':' :: p))))) cfg = (h, 22))
  ∧ (∀ u h d p n, chrIn '/' u = false → chrIn '@' u = false → chrIn '/' h = false →
       chrIn '/' d = false → chrIn ':' d = false → pyInt d = some n →
       infer_ssh_target
         (some (str "ssh://" ++ (u ++ ('@' :: (h ++ (':' :: (d ++ ('/' :: p)))))))) cfg
         = (h, n))
  ∧ (∀ u h p, chrIn '/' u = false → chrIn '@' u = false → chrIn '/' h = false →
       chrIn ':' h = false →
       infer_ssh_target (some (str "ssh://" ++ (u ++ ('@' :: (h ++ ('/' :: p)))))) cfg
         = (h, 22))
  ∧ (∀ r, (chrIn ':' r = false ∨ chrIn '@' r = false) →
       (str "ssh://").isPrefixOf r = false →
       infer_ssh_target (some r) cfg = (cfg.network_host, cfg.network_port)) := by
  refine ⟨rfl, fun u h p hu hh hssh => ?_, fun u h d p n hu1 hu2 hh1 hd1 hd2 hn => ?_,
    fun u h p hu1 hu2 hh1 hh2 => ?_, fun r hr hssh => ?_⟩
  · have hat : chrIn '@' (u ++ ('@' :: (h ++ (':' :: p)))) = true := by
      simp [chrIn_append, chrIn]
    have hcol : chrIn ':' (u ++ ('@' :: (h ++ (':' :: p)))) = true := by
      simp [chrIn_append, chrIn]
    have hs1 : splitFirst '@' (u ++ ('@' :: (h ++ (':' :: p)))) =
        some (u, h ++ (':' :: p)) := splitFirst_not_mem '@' u _ hu
    have hs2 : splitFirst ':' (h ++ (':' :: p)) = some (h, p) :=
      splitFirst_not_mem ':' h p hh
    simp [infer_ssh_target, hat, hcol, hssh, hs1, hs2, DEFAULT_NETWORK_PORT]
  · have hpre : (str "ssh://").isPrefixOf
        (str "ssh://" ++ (u ++ ('@' :: (h ++ (':' :: (d ++ ('/' :: p))))))) = true :=
      isPrefixOf_append_self _ _
    have hdrop : (str "ssh://" ++ (u ++ ('@' :: (h ++ (':' :: (d ++ ('/' :: p))))))).drop
        (str "ssh://").length = u ++ ('@' :: (h ++ (':' :: (d ++ ('/' :: p))))) :=
      List.drop_left _ _
    have hassoc : u ++ ('@' :: (h ++ (':' :: (d ++ ('/' :: p))))) =
        (u ++ ('@' :: (h ++ (':' :: d)))) ++ ('/' :: p) := by
      simp [List.append_assoc]
    have hnoslash : chrIn '/' (u ++ ('@' :: (h ++ (':' :: d)))) = false := by
      simp [chrIn_append, chrIn, hu1, hh1, hd1]
    have hs1 : splitFirst '/' ((u ++ ('@' :: (h ++ (':' :: d)))) ++ ('/' :: p)) =
        some (u ++ ('@' :: (h ++ (':' :: d))), p) :=
      splitFirst_not_mem '/' _ p hnoslash
    have hat : chrIn '@' (u ++ ('@' :: (h ++ (':' :: d)))) = true := by
      simp [chrIn_append, chrIn]
    have hs2 : splitFirst '@' (u ++ ('@' :: (h ++ (':' :: d)))) =
        some (u, h ++ (':' :: d)) := splitFirst_not_mem '@' u _ hu2
    have hcol : chrIn ':' (h ++ (':' :: d)) = true := by
      simp [chrIn_append, chrIn]
    have hs3 : splitLast ':' (h ++ (':' :: d)) = some (h, d) :=
      splitLast_not_mem ':' h d hd2
    simp only [infer_ssh_target]
    rw [hpre, hdrop, hassoc, hs1]
    simp [hat, hs2, hcol, hs3, hn]
  · have hpre : (str "ssh://").isPrefixOf
        (str "ssh://" ++ (u ++ ('@' :: (h ++ ('/' :: p))))) = true :=
      isPrefixOf_append_self _ _
    have hdrop : (str "ssh://" ++ (u ++ ('@' :: (h ++ ('/' :: p))))).drop
        (str "ssh://").length = u ++ ('@' :: (h ++ ('/' :: p))) := List.drop_left _ _
    have hassoc : u ++ ('@' :: (h ++ ('/' :: p))) = (u ++ ('@' :: h)) ++ ('/' :: p) := by
      simp [List.append_assoc]
    have hnoslash : chrIn '/' (u ++ ('@' :: h)) = false := by
      simp [chrIn_append, chrIn, hu1, hh1]
    have hs1 : splitFirst '/' ((u ++ ('@' :: h)) ++ ('/' :: p)) =
        some (u ++ ('@' :: h), p) := splitFirst_not_mem '/' _ p hnoslash
    have hat : chrIn '@' (u ++ ('@' :: h)) = true := by
      simp [chrIn_append, chrIn]
    have hs2 : splitFirst '@' (u ++ ('@' :: h)) = some (u, h) :=
      splitFirst_not_mem '@' u h hu2
    simp only [infer_ssh_target]
    rw [hpre, hdrop, hassoc, hs1]
    simp [hat, hs2, hh2, DEFAULT_NETWORK_PORT]
  · rcases hr with hc | ha
    · simp [infer_ssh_target, hc, hssh]
    · simp [infer_ssh_target, ha, hssh]

/-- C8 counterexample: a remote of the form scheme://host/path with a
    non-ssh scheme falls back to the configured defaults instead of being
    recognized as (host, 22) as the claim requires. -/
theorem C8_counterexample :
    infer_ssh_target (some (str "https://example.com/repo.git")) cfgC8 =
      (cfgC8.network_host, cfgC8.network_port)
  ∧ ¬infer_ssh_target (some (str "https://example.com/repo.git")) cfgC8 =
      (str "example.com", 22) :=
  ⟨rfl, by decide⟩

/-- C8 witness: the amended theorem applied to an ssh remote with an
    explicit port. -/
theorem C8_witness :
    infer_ssh_target
      (some (str "ssh://" ++ (str "git" ++ ('@' :: (str "example.com" ++
        (':' :: (str "2222" ++ ('/' :: str "repo")))))))) cfgC8 =
      (str "example.com", 2222) :=
  (C8_infer_ssh_target_forms cfgC8).2.2.1 (str "git") (str "example.com") (str "2222")
    (str "repo") 2222 rfl rfl rfl rfl rfl rfl

/-- C9 (amended): the interval loaded from the configuration store and the
    interval in effect in the run loop are always at least the minimum of
    1; a below-minimum stored value is clamped on load, and a below-minimum
    nonzero explicit override is clamped in the run loop — but an explicit
    override of 0 is ignored in favor of the configured value (then
    clamped) rather than being clamped itself. -/
theorem C9_interval_clamping :
    (∀ d, load_interval d ≥ 1)
  ∧ (∀ v, v < 1 → load_interval (some v) = 1)
  ∧ (∀ a c, effective_interval a c ≥ 1)
  ∧ (∀ v c, ¬v = 0 → v < 1 → effective_interval (some v) c = 1)
  ∧ (∀ c, effective_interval (some 0) c = if c < 1 then 1 else c) := by
  refine ⟨fun d => ?_, fun v hv => ?_, fun a c => ?_, fun v c hv0 hv1 => ?_, fun c => ?_⟩
  · cases d with
    | none =>
      simp only [load_interval, MIN_INTERVAL_MINUTES, DEFAULT_INTERVAL_MINUTES,
        Option.getD]
      omega
    | some v =>
      simp only [load_interval, MIN_INTERVAL_MINUTES, DEFAULT_INTERVAL_MINUTES,
        Option.getD_some]
      omega
  · simp only [load_interval, MIN_INTERVAL_MINUTES, DEFAULT_INTERVAL_MINUTES,
      Option.getD_some]
    omega
  · cases a with
    | none =>
      simp only [effective_interval, MIN_INTERVAL_MINUTES]
      split <;> omega
    | some v =>
      simp only [effective_interval, MIN_INTERVAL_MINUTES]
      split <;> split <;> omega
  · simp only [effective_interval, MIN_INTERVAL_MINUTES, hv0, if_false, if_neg hv0]
    rw [if_pos hv1]
  · simp only [effective_interval, MIN_INTERVAL_MINUTES, if_pos]

/-- C9 counterexample: an explicit override of 0 is below the minimum of 1
    but the interval in effect becomes the configured value 5, not the
    minimum the claim requires. -/
theorem C9_counterexample :
    effective_interval (some 0) 5 = 5
  ∧ ¬effective_interval (some 0) 5 = 1
  ∧ (0 : Int) < 1
  ∧ ¬(5 : Int) = 1 := by decide

/-- C9 witness: a nonzero below-minimum override is clamped to the
    minimum. -/
theorem C9_witness : effective_interval (some (-3)) 7 = 1 :=
  C9_interval_clamping.2.2.2.1 (-3) 7 (by decide) (by decide)

/-- C10 (amended): with the remote-tracking branch present, ahead_behind
    returns (0, 0) when the rev-list call exits nonzero or its output does
    not split into exactly two whitespace fields; with exactly two fields
    it parses them as integers — left behind, right ahead — and a
    non-integer field raises ValueError instead of returning (0, 0), so
    the computation is not total. -/
theorem C10_ahead_behind_guard_behavior (w : World) (b : Str) (s : St) :
    ((w.git s.calls (showRefArgs b)).returncode = 0 →
      ¬(w.git (s.calls + 1) (revListArgs b)).returncode = 0 →
      M.run (ahead_behind w b) s =
        (Except.ok (0, 0),
         ⟨s.calls + 2, s.trace ++ [Ev.git (showRefArgs b), Ev.git (revListArgs b)]⟩))
  ∧ ((w.git s.calls (showRefArgs b)).returncode = 0 →
      (w.git (s.calls + 1) (revListArgs b)).returncode = 0 →
      ¬(pySplitWS (pyStrip (w.git (s.calls + 1) (revListArgs b)).stdout)).length = 2 →
      M.run (ahead_behind w b) s =
        (Except.ok (0, 0),
         ⟨s.calls + 2, s.trace ++ [Ev.git (showRefArgs b), Ev.git (revListArgs b)]⟩))
  ∧ (∀ l r bv av, (w.git s.calls (showRefArgs b)).returncode = 0 →
      (w.git (s.calls + 1) (revListArgs b)).returncode = 0 →
      pySplitWS (pyStrip (w.git (s.calls + 1) (revListArgs b)).stdout) = [l, r] →
      pyInt l = some bv → pyInt r = some av →
      M.run (ahead_behind w b) s =
        (Except.ok (av, bv),
         ⟨s.calls + 2, s.trace ++ [Ev.git (showRefArgs b), Ev.git (revListArgs b)]⟩))
  ∧ (∀ l r, (w.git s.calls (showRefArgs b)).returncode = 0 →
      (w.git (s.calls + 1) (revListArgs b)).returncode = 0 →
      pySplitWS (pyStrip (w.git (s.calls + 1) (revListArgs b)).stdout) = [l, r] →
      pyInt l = none →
      M.run (ahead_behind w b) s =
        (Except.error PyErr.valueError,
         ⟨s.calls + 2, s.trace ++ [Ev.git (showRefArgs b), Ev.git (revListArgs b)]⟩)) := by
  refine ⟨fun h1 h2 => ?_, fun h1 h2 h3 => ?_, fun l r bv av h1 h2 h3 h4 h5 => ?_,
    fun l r h1 h2 h3 h4 => ?_⟩
  · simp [ahead_behind, origin_branch_exists, run_git, M.run, Bind.bind, M.bind,
      Pure.pure, M.pure, h1, h2]
  · rcases hsplit : pySplitWS (pyStrip (w.git (s.calls + 1) (revListArgs b)).stdout) with
      _ | ⟨a, _ | ⟨c, _ | ⟨d, rest⟩⟩⟩
    · simp [ahead_behind, origin_branch_exists, run_git, M.run, Bind.bind, M.bind,
        Pure.pure, M.pure, h1, h2, hsplit]
    · simp [ahead_behind, origin_branch_exists, run_git, M.run, Bind.bind, M.bind,
        Pure.pure, M.pure, h1, h2, hsplit]
    · rw [hsplit] at h3
      simp at h3
    · simp [ahead_behind, origin_branch_exists, run_git, M.run, Bind.bind, M.bind,
        Pure.pure, M.pure, h1, h2, hsplit]
  · simp [ahead_behind, origin_branch_exists, run_git, M.run, Bind.bind, M.bind,
      Pure.pure, M.pure, h1, h2, h3, pyIntM, h4, h5]
  · simp [ahead_behind, origin_branch_exists, run_git, M.run, Bind.bind, M.bind,
      Pure.pure, M.pure, M.throwErr, h1, h2, h3, pyIntM, h4]

/-- C10 counterexample: with origin/main present and the rev-list call
    succeeding with the two-field output x y, ahead_behind raises
    ValueError — it is not total as the claim asserts. -/
theorem C10_counterexample :
    (M.run (ahead_behind wC10 (str "main")) ⟨0, []⟩).1 = Except.error PyErr.valueError
  ∧ (wC10.git 1 (revListArgs (str "main"))).returncode = 0
  ∧ (pySplitWS (pyStrip (wC10.git 1 (revListArgs (str "main"))).stdout)).length = 2 :=
  ⟨rfl, rfl, by decide⟩

/-- C10 witness: the amended theorem applied to the well-formed two-column
    answer 1 behind, 2 ahead. -/
theorem C10_witness :
    M.run (ahead_behind wC10w (str "main")) ⟨0, []⟩ =
      (Except.ok (2, 1),
       ⟨2, [Ev.git (showRefArgs (str "main")), Ev.git (revListArgs (str "main"))]⟩) :=
  (C10_ahead_behind_guard_behavior wC10w (str "main") ⟨0, []⟩).2.2.1 (str "1") (str "2")
    1 2 rfl rfl (by decide) rfl rfl

end GitSync
